import Mathlib

/-!
Verification development for `src/src/plugins/autonomy/ROSAirSim/ROSAirSim.cpp`
(the SCRIMMAGE ROSAirSim autonomy plugin, a bridge that republishes AirSim
camera images, LIDAR point clouds and poses on ROS topics, converting the
simulator's NED axis convention to ENU).

The embedding is shallow:

* C++ `float`/`double` arithmetic is idealized as arithmetic in an arbitrary
  linear ordered field `K`; the math-library routines the code calls
  (`std::sqrt`, `std::cos`, `std::sin` and the constant `M_PI`) are abstracted
  as an uninterpreted `ScalarOps K` record, since no claim depends on their
  numeric values.
* Eigen primitives used by the code (`Quaternion` product, `AngleAxis` to
  quaternion conversion, `Quaternion::toRotationMatrix`, `Transform`
  composition/inverse in `Isometry` mode, and the rotation-matrix to
  quaternion assignment) are transcribed from Eigen's definitions.
* The LIDAR point cloud is a `std::vector<float>` that the plugin never does
  arithmetic on: it only measures its size and reinterprets its storage as
  bytes.  Each float is therefore modelled by its 32-bit pattern (a `Nat`),
  and the `reinterpret_cast` by little-endian byte extraction.
* ROS publishing and TF broadcasting are modelled as explicit output lists;
  `ros::Time::now()` stamps are outside the model.  `image_transport`
  publishers are identified by the topic string they were advertised on,
  which is what `getTopic()` returns (the advertised names start with `/`, so
  name resolution leaves them unchanged).
* `cv::Mat` images are an opaque type parameter `Img`: the plugin copies them
  into messages without inspecting pixels.
-/

namespace RosAirSim

/-- The scalar operations of the C math library used by the plugin
(`std::sqrt`, `std::cos`, `std::sin`, `M_PI`), left uninterpreted. -/
structure ScalarOps (K : Type) where
  sqrt : K → K
  cos : K → K
  sin : K → K
  pi : K

variable {K : Type} [LinearOrderedField K] {Img : Type}

/-- `Eigen::Matrix<float, 3, 1>`. -/
@[ext] structure Vec3 (K : Type) where
  x : K
  y : K
  z : K
deriving DecidableEq

/-- `Eigen::Quaternion<float>` (components w, x, y, z). -/
@[ext] structure Quat (K : Type) where
  w : K
  x : K
  y : K
  z : K
deriving DecidableEq

/-- Eigen's quaternion `operator*` (the Hamilton product). -/
def quatMul (a b : Quat K) : Quat K :=
  { w := a.w * b.w - a.x * b.x - a.y * b.y - a.z * b.z
    x := a.w * b.x + a.x * b.w + a.y * b.z - a.z * b.y
    y := a.w * b.y + a.y * b.w + a.z * b.x - a.x * b.z
    z := a.w * b.z + a.z * b.w + a.x * b.y - a.y * b.x }

/-- `Eigen::AngleAxis(theta, Eigen::Vector3f::UnitX())` converted to a
quaternion, as Eigen does before multiplying it with a quaternion:
`w = cos(theta/2)`, vector part `sin(theta/2) * axis`. -/
def angleAxisX (ops : ScalarOps K) (theta : K) : Quat K :=
  ⟨ops.cos (theta / 2), ops.sin (theta / 2), 0, 0⟩

/-- `Eigen::AngleAxis(theta, Eigen::Vector3f::UnitZ())` converted to a
quaternion. -/
def angleAxisZ (ops : ScalarOps K) (theta : K) : Quat K :=
  ⟨ops.cos (theta / 2), 0, 0, ops.sin (theta / 2)⟩

/-- Line 176 / 337 / 459: `double xTo = -180 * (M_PI / 180);`. -/
def xTo (ops : ScalarOps K) : K := -180 * (ops.pi / 180)

/-- Line 177 / 338 / 460: `double zTo = 90 * (M_PI / 180);`. -/
def zTo (ops : ScalarOps K) : K := 90 * (ops.pi / 180)

/-- The NED-to-ENU position conversion the plugin applies to every incoming
position (lines 170-172, 190-192, 331-333, 351-353, 453-455, 473-475):
ENU x is NED y, ENU y is NED x, ENU z is `-1 *` NED z. -/
def nedPosToENU (p : Vec3 K) : Vec3 K := ⟨p.y, p.x, -1 * p.z⟩

/-- The NED-to-ENU orientation conversion the plugin applies to every incoming
quaternion (lines 178-180, 198-200, 339-341, 359-361, 461-463, 481-483):
first a multiplication by `AngleAxis(xTo, UnitX)` on the left, then a
multiplication by `AngleAxis(zTo, UnitZ)` on the left. -/
def nedQuatToENU (ops : ScalarOps K) (q : Quat K) : Quat K :=
  quatMul (angleAxisZ ops (zTo ops)) (quatMul (angleAxisX ops (xTo ops)) q)

/-- A 3x3 matrix (`Eigen::Matrix3f`), the linear part of a transform. -/
@[ext] structure Mat3 (K : Type) where
  m00 : K
  m01 : K
  m02 : K
  m10 : K
  m11 : K
  m12 : K
  m20 : K
  m21 : K
  m22 : K
deriving DecidableEq

/-- Eigen's `Quaternion::toRotationMatrix`. -/
def quatToRot (q : Quat K) : Mat3 K :=
  let tx := 2 * q.x
  let ty := 2 * q.y
  let tz := 2 * q.z
  let twx := tx * q.w
  let twy := ty * q.w
  let twz := tz * q.w
  let txx := tx * q.x
  let txy := ty * q.x
  let txz := tz * q.x
  let tyy := ty * q.y
  let tyz := tz * q.y
  let tzz := tz * q.z
  { m00 := 1 - (tyy + tzz), m01 := txy - twz, m02 := txz + twy
    m10 := txy + twz, m11 := 1 - (txx + tzz), m12 := tyz - twx
    m20 := txz - twy, m21 := tyz + twx, m22 := 1 - (txx + tyy) }

/-- Matrix product. -/
def matMul (a b : Mat3 K) : Mat3 K :=
  { m00 := a.m00 * b.m00 + a.m01 * b.m10 + a.m02 * b.m20
    m01 := a.m00 * b.m01 + a.m01 * b.m11 + a.m02 * b.m21
    m02 := a.m00 * b.m02 + a.m01 * b.m12 + a.m02 * b.m22
    m10 := a.m10 * b.m00 + a.m11 * b.m10 + a.m12 * b.m20
    m11 := a.m10 * b.m01 + a.m11 * b.m11 + a.m12 * b.m21
    m12 := a.m10 * b.m02 + a.m11 * b.m12 + a.m12 * b.m22
    m20 := a.m20 * b.m00 + a.m21 * b.m10 + a.m22 * b.m20
    m21 := a.m20 * b.m01 + a.m21 * b.m11 + a.m22 * b.m21
    m22 := a.m20 * b.m02 + a.m21 * b.m12 + a.m22 * b.m22 }

/-- Matrix transpose. -/
def matT (a : Mat3 K) : Mat3 K :=
  { m00 := a.m00, m01 := a.m10, m02 := a.m20
    m10 := a.m01, m11 := a.m11, m12 := a.m21
    m20 := a.m02, m21 := a.m12, m22 := a.m22 }

/-- Matrix-vector product. -/
def matApply (a : Mat3 K) (v : Vec3 K) : Vec3 K :=
  ⟨a.m00 * v.x + a.m01 * v.y + a.m02 * v.z,
   a.m10 * v.x + a.m11 * v.y + a.m12 * v.z,
   a.m20 * v.x + a.m21 * v.y + a.m22 * v.z⟩

/-- `Eigen::Isometry3f`: a rigid transform kept as linear part plus
translation. -/
@[ext] structure Iso (K : Type) where
  lin : Mat3 K
  tr : Vec3 K
deriving DecidableEq

/-- `Eigen::Translation3f(p) * Eigen::Quaternionf(q)` as an `Isometry3f`
(lines 182-184 and the analogous sites): linear part is the quaternion's
rotation matrix, translation is `p`. -/
def isoOfTransQuat (p : Vec3 K) (q : Quat K) : Iso K :=
  ⟨quatToRot q, p⟩

/-- `Transform::inverse()` in `Isometry` mode: transpose the linear part and
negate the back-rotated translation. -/
def isoInverse (i : Iso K) : Iso K :=
  let rt := matT i.lin
  let v := matApply rt i.tr
  ⟨rt, ⟨-v.x, -v.y, -v.z⟩⟩

/-- Composition of two transforms: `a * b`. -/
def isoComp (a b : Iso K) : Iso K :=
  let v := matApply a.lin b.tr
  ⟨matMul a.lin b.lin, ⟨v.x + a.tr.x, v.y + a.tr.y, v.z + a.tr.z⟩⟩

/-- Eigen's rotation-matrix to quaternion assignment
(`Eigen::Quaternionf(isometry.rotation())`): Shepperd's method, branching on
the trace and on the largest diagonal entry. -/
def quatFromRot (ops : ScalarOps K) (m : Mat3 K) : Quat K :=
  let t := m.m00 + m.m11 + m.m22
  if 0 < t then
    let r := ops.sqrt (t + 1)
    let s := 1 / 2 / r
    ⟨r / 2, (m.m21 - m.m12) * s, (m.m02 - m.m20) * s, (m.m10 - m.m01) * s⟩
  else if m.m11 > m.m00 then
    if m.m22 > m.m11 then
      let r := ops.sqrt (m.m22 - m.m00 - m.m11 + 1)
      let s := 1 / 2 / r
      ⟨(m.m10 - m.m01) * s, (m.m02 + m.m20) * s, (m.m12 + m.m21) * s, r / 2⟩
    else
      let r := ops.sqrt (m.m11 - m.m22 - m.m00 + 1)
      let s := 1 / 2 / r
      ⟨(m.m02 - m.m20) * s, (m.m01 + m.m10) * s, r / 2, (m.m21 + m.m12) * s⟩
  else if m.m22 > m.m00 then
    let r := ops.sqrt (m.m22 - m.m00 - m.m11 + 1)
    let s := 1 / 2 / r
    ⟨(m.m10 - m.m01) * s, (m.m02 + m.m20) * s, (m.m12 + m.m21) * s, r / 2⟩
  else
    let r := ops.sqrt (m.m00 - m.m11 - m.m22 + 1)
    let s := 1 / 2 / r
    ⟨(m.m21 - m.m12) * s, r / 2, (m.m10 + m.m01) * s, (m.m20 + m.m02) * s⟩

/-- `geometry_msgs::TransformStamped`, restricted to the fields the plugin
fills (time stamps are outside the model). -/
@[ext] structure TransformStamped (K : Type) where
  frame_id : String
  child_frame_id : String
  translation : Vec3 K
  rotation : Quat K
deriving DecidableEq

/-- An AirSim pose (`position` in NED, `orientation` quaternion). -/
@[ext] structure Pose (K : Type) where
  position : Vec3 K
  orientation : Quat K
deriving DecidableEq

/-- Lines 168-227 of the image callback: from the vehicle pose and camera pose
(both world-frame NED), compute the camera transform message: convert both
poses to ENU, build the two world-frame isometries, compose
`tf_world_vehicle_ENU.inverse() * tf_world_camera_ENU`, and read off the
translation and (via Eigen's matrix-to-quaternion assignment) the rotation. -/
def cameraTransformFromImageCallback (ops : ScalarOps K) (ns camera_name : String)
    (vehicle_pose_world_NED camera_pose_world_NED : Pose K) : TransformStamped K :=
  let vehicle_position_ENU := nedPosToENU vehicle_pose_world_NED.position
  let vehicle_orientation_ENU := nedQuatToENU ops vehicle_pose_world_NED.orientation
  let tf_world_vehicle_ENU := isoOfTransQuat vehicle_position_ENU vehicle_orientation_ENU
  let camera_position_world_ENU := nedPosToENU camera_pose_world_NED.position
  let camera_orientation_world_ENU := nedQuatToENU ops camera_pose_world_NED.orientation
  let tf_world_camera_ENU := isoOfTransQuat camera_position_world_ENU camera_orientation_world_ENU
  let tf_vehicle_camera_ENU := isoComp (isoInverse tf_world_vehicle_ENU) tf_world_camera_ENU
  { frame_id := ns ++ "/base_link"
    child_frame_id := ns ++ "/" ++ camera_name ++ "/pose"
    translation := tf_vehicle_camera_ENU.tr
    rotation := quatFromRot ops tf_vehicle_camera_ENU.lin }

/-- Lines 329-388 of `step_autonomy`: the per-tick camera transform
computation, transcribed from its own code block. -/
def cameraTransformFromStep (ops : ScalarOps K) (ns cam_name : String)
    (vehicle_pose_world_NED camera_pose_world_NED : Pose K) : TransformStamped K :=
  let vehicle_position_ENU := nedPosToENU vehicle_pose_world_NED.position
  let vehicle_orientation_ENU := nedQuatToENU ops vehicle_pose_world_NED.orientation
  let tf_world_vehicle_ENU := isoOfTransQuat vehicle_position_ENU vehicle_orientation_ENU
  let camera_position_world_ENU := nedPosToENU camera_pose_world_NED.position
  let camera_orientation_world_ENU := nedQuatToENU ops camera_pose_world_NED.orientation
  let tf_world_camera_ENU := isoOfTransQuat camera_position_world_ENU camera_orientation_world_ENU
  let tf_vehicle_camera_ENU := isoComp (isoInverse tf_world_vehicle_ENU) tf_world_camera_ENU
  { frame_id := ns ++ "/base_link"
    child_frame_id := ns ++ "/" ++ cam_name ++ "/pose"
    translation := tf_vehicle_camera_ENU.tr
    rotation := quatFromRot ops tf_vehicle_camera_ENU.lin }

/-- The world transform the plugin rebuilds from a vehicle NED pose
(lines 233-244, 394-405 and 513-524 all run exactly this computation):
frame `world`, child `<ns>/base_link`, translation and rotation taken from
`tf_world_vehicle_ENU` (the rotation goes through Eigen's matrix-to-quaternion
assignment). -/
def worldTransformOfVehicle (ops : ScalarOps K) (ns : String)
    (vehicle_pose_world_NED : Pose K) : TransformStamped K :=
  let tf_world_vehicle_ENU :=
    isoOfTransQuat (nedPosToENU vehicle_pose_world_NED.position)
      (nedQuatToENU ops vehicle_pose_world_NED.orientation)
  { frame_id := "world"
    child_frame_id := ns ++ "/base_link"
    translation := tf_world_vehicle_ENU.tr
    rotation := quatFromRot ops tf_world_vehicle_ENU.lin }

/-- Lines 452-507: the laser transform computed each tick from the buffered
LIDAR sample's vehicle pose and lidar pose. -/
def laserTransformOfLidar (ops : ScalarOps K) (ns : String)
    (vehicle_pose_world_NED lidar_pose_world_NED : Pose K) : TransformStamped K :=
  let vehicle_position_ENU := nedPosToENU vehicle_pose_world_NED.position
  let vehicle_orientation_ENU := nedQuatToENU ops vehicle_pose_world_NED.orientation
  let tf_world_vehicle_ENU := isoOfTransQuat vehicle_position_ENU vehicle_orientation_ENU
  let lidar_position_world_ENU := nedPosToENU lidar_pose_world_NED.position
  let lidar_orientation_world_ENU := nedQuatToENU ops lidar_pose_world_NED.orientation
  let tf_world_lidar_ENU := isoOfTransQuat lidar_position_world_ENU lidar_orientation_world_ENU
  let tf_vehicle_lidar_ENU := isoComp (isoInverse tf_world_vehicle_ENU) tf_world_lidar_ENU
  { frame_id := ns ++ "/base_link"
    child_frame_id := ns ++ "/base_laser"
    translation := tf_vehicle_lidar_ENU.tr
    rotation := quatFromRot ops tf_vehicle_lidar_ENU.lin }

/-- Quaternion multiplication is associative (a polynomial identity, needed to
compare the code's two successive left-multiplications with the spec's single
composed rotation). -/
theorem quatMul_assoc (a b c : Quat K) :
    quatMul (quatMul a b) c = quatMul a (quatMul b c) := by
  unfold quatMul
  ext <;> dsimp <;> ring

/-- Written from the spec's words: the "+90-degree rotation about Z" as a
quaternion, for comparison with the code's conversion. -/
def specRotZ90 (ops : ScalarOps K) : Quat K := angleAxisZ ops (ops.pi / 2)

/-- Written from the spec's words: the "-180-degree rotation about X" as a
quaternion, for comparison with the code's conversion. -/
def specRotXNeg180 (ops : ScalarOps K) : Quat K := angleAxisX ops (-ops.pi)

/-- Claim C1: every pose received in NED is converted to ENU by mapping the
position (x, y, z) to (y, x, -z) and the orientation quaternion q to
`Rz(+90 deg) * Rx(-180 deg) * q` (the -180-degree rotation about X applied
first, then the +90-degree rotation about Z). -/
theorem ned_to_enu_conversion (ops : ScalarOps K) (p : Vec3 K) (q : Quat K) :
    nedPosToENU p = ⟨p.y, p.x, -p.z⟩ ∧
    nedQuatToENU ops q = quatMul (quatMul (specRotZ90 ops) (specRotXNeg180 ops)) q := by
  constructor
  · unfold nedPosToENU
    ext <;> dsimp <;> ring
  · unfold nedQuatToENU specRotZ90 specRotXNeg180
    rw [quatMul_assoc]
    have hz : zTo ops = ops.pi / 2 := by unfold zTo; ring
    have hx : xTo ops = -ops.pi := by unfold xTo; ring
    rw [hz, hx]

/-- Claim C2: the camera-pose computation in the image callback and the one in
`step_autonomy` are the same function: on identical vehicle and camera NED
poses they produce identical transform translation and rotation values. -/
theorem camera_transform_consistent (ops : ScalarOps K) (ns cam : String)
    (vp cp : Pose K) :
    (cameraTransformFromImageCallback ops ns cam vp cp).translation =
      (cameraTransformFromStep ops ns cam vp cp).translation ∧
    (cameraTransformFromImageCallback ops ns cam vp cp).rotation =
      (cameraTransformFromStep ops ns cam vp cp).rotation :=
  ⟨rfl, rfl⟩

/-- The camera configuration carried inside an `AirSimImageType` sample. -/
structure CameraConfig where
  cam_name : String
  img_type_name : String
  pixels_as_float : Bool
deriving DecidableEq

/-- `sc::sensor::AirSimImageType`: one camera image together with its
configuration and the vehicle/camera world-frame NED poses.  The `cv::Mat`
image is an opaque `Img`. -/
structure AirSimImageType (K Img : Type) where
  camera_config : CameraConfig
  vehicle_name : String
  img : Img
  vehicle_pose_world_NED : Pose K
  camera_pose_world_NED : Pose K
deriving DecidableEq

/-- The `lidar_data` member of an AirSim LIDAR sample: a `std::vector<float>`
point cloud, each float modelled by its 32-bit pattern. -/
structure LidarData where
  point_cloud : List Nat
deriving DecidableEq

/-- `sc::sensor::AirSimLidarType`: one LIDAR sample with the vehicle and lidar
world-frame NED poses. -/
structure AirSimLidarType (K : Type) where
  lidar_data : LidarData
  vehicle_pose_world_NED : Pose K
  lidar_pose_world_NED : Pose K
deriving DecidableEq

/-- The ROS image message produced by
`cv_bridge::CvImage(header, encoding, a.img).toImageMsg()`. -/
structure ImageMsg (Img : Type) where
  frame_id : String
  encoding : String
  img : Img
deriving DecidableEq

/-- `sensor_msgs::PointField`. -/
structure PointField where
  name : String
  offset : Nat
  datatype : Nat
  count : Nat
deriving DecidableEq

/-- `sensor_msgs::PointField::FLOAT32`. -/
def FLOAT32 : Nat := 7

/-- `sensor_msgs::PointCloud2`, restricted to the fields the plugin fills
(the time stamp is outside the model).  A default-constructed ROS message has
zero numbers, false booleans and empty containers. -/
structure PointCloud2 where
  frame_id : String
  height : Nat
  width : Nat
  fields : List PointField
  is_bigendian : Bool
  point_step : Nat
  row_step : Nat
  is_dense : Bool
  data : List Nat
deriving DecidableEq

/-- The four little-endian bytes of one 32-bit float pattern, as laid out in
the `std::vector<float>` storage that line 442 reinterprets as
`unsigned char*`. -/
def floatBytesLE (w : Nat) : List Nat :=
  [w % 256, w / 256 % 256, w / 65536 % 256, w / 16777216 % 256]

/-- The raw bytes of the whole point cloud (lines 442-444). -/
def pointCloudBytes (pc : List Nat) : List Nat :=
  (pc.map floatBytesLE).flatten

/-- Lines 416-445: build the per-tick `sensor_msgs::PointCloud2` from the
buffered LIDAR sample.  The payload is filled only when the point cloud holds
strictly more than 3 floats; otherwise the message keeps its
default-constructed (empty) payload, with only the frame id set. -/
def mkLidarMsg (ns : String) (ld : AirSimLidarType K) : PointCloud2 :=
  let base : PointCloud2 :=
    { frame_id := ns ++ "/base_laser", height := 0, width := 0, fields := []
      is_bigendian := false, point_step := 0, row_step := 0, is_dense := false
      data := [] }
  if 3 < ld.lidar_data.point_cloud.length then
    let w := ld.lidar_data.point_cloud.length / 3
    { base with
      height := 1
      width := w
      fields := [⟨"x", 0, FLOAT32, 1⟩, ⟨"y", 4, FLOAT32, 1⟩, ⟨"z", 8, FLOAT32, 1⟩]
      point_step := 12
      row_step := 12 * w
      is_dense := true
      data := pointCloudBytes ld.lidar_data.point_cloud }
  else base

/-- The mutable state of the `ROSAirSim` plugin object (the members of the
class that the `.cpp` file touches). -/
structure ROSAirSim (K Img : Type) where
  show_camera_images_ : Bool
  pub_image_data_ : Bool
  pub_lidar_data_ : Bool
  ros_namespace_ : String
  img_topic_published_ : Bool
  image_data_ : List (AirSimImageType K Img)
  lidar_data_ : AirSimLidarType K
  camera_names_ : List String
  img_publishers_ : List String
  world_trans_ : TransformStamped K
deriving DecidableEq

/-- Lines 113-118, `airsim_lidar_cb`: a point cloud with fewer than 3 floats
makes the callback return before the buffer assignment; otherwise the sample
is buffered.  The callback publishes nothing. -/
def airsim_lidar_cb (msg : AirSimLidarType K) (s : ROSAirSim K Img) :
    ROSAirSim K Img :=
  if msg.lidar_data.point_cloud.length < 3 then s
  else { s with lidar_data_ := msg }

/-- `boost::algorithm::to_lower_copy` (default locale): lower-case each
character of the string. -/
def toLowerCopy (s : String) : String := ⟨s.data.map Char.toLower⟩

/-- Line 139 / 283: the image topic name
`"/" + ros_namespace_ + "/" + camera_name + "/" + image_type_name`, with both
names lower-cased by `boost::algorithm::to_lower_copy`. -/
def topicNameOf (ns : String) (a : AirSimImageType K Img) : String :=
  "/" ++ ns ++ "/" ++ toLowerCopy a.camera_config.cam_name ++ "/" ++
    toLowerCopy a.camera_config.img_type_name

/-- Lines 143-152 / 284-298: the image message built for one sample: header
frame `<ns>/<camera name>/images`, encoding `""` for float pixels and `"rgb8"`
otherwise, and the image itself. -/
def imageMsgOf (ns : String) (a : AirSimImageType K Img) : ImageMsg Img :=
  { frame_id := ns ++ "/" ++ toLowerCopy a.camera_config.cam_name ++ "/images"
    encoding := if a.camera_config.pixels_as_float then "" else "rgb8"
    img := a.img }

/-- The outputs of one run of the image callback: image publications (topic,
message) and the `sendTransform` calls it makes (one list per call). -/
structure CbOut (K Img : Type) where
  images : List (String × ImageMsg Img)
  tfSent : List (List (TransformStamped K))
deriving DecidableEq

/-- The accumulator threaded through the image callback's
`for (a : image_data_)` loop (lines 134-248): the publisher list, the camera
name list, the member `world_trans_`, and the outputs produced so far. -/
structure CbAcc (K Img : Type) where
  pubs : List String
  names : List String
  wt : TransformStamped K
  images : List (String × ImageMsg Img)
  tfSent : List (List (TransformStamped K))

/-- Lines 134-248: the body of the image callback's publisher-creation loop.
For each image: advertise its topic (append to `img_publishers_`), publish the
current message, and if the (lower-cased) camera name is new, record it and
broadcast its camera transform - plus an updated world transform when LIDAR
publishing is off. -/
def processImages (ops : ScalarOps K) (ns : String) (pubLidar : Bool) :
    List (AirSimImageType K Img) → List String → List String →
      TransformStamped K → CbAcc K Img
  | [], pubs, names, wt => ⟨pubs, names, wt, [], []⟩
  | a :: rest, pubs, names, wt =>
    let camera_name := toLowerCopy a.camera_config.cam_name
    let topic := topicNameOf ns a
    let pubEvent := (topic, imageMsgOf ns a)
    if names.contains camera_name then
      let r := processImages ops ns pubLidar rest (pubs ++ [topic]) names wt
      { r with images := pubEvent :: r.images }
    else
      let itrans := cameraTransformFromImageCallback ops ns camera_name
        a.vehicle_pose_world_NED a.camera_pose_world_NED
      if pubLidar then
        let r := processImages ops ns pubLidar rest (pubs ++ [topic])
          (names ++ [camera_name]) wt
        { r with images := pubEvent :: r.images, tfSent := [itrans] :: r.tfSent }
      else
        let wtNew := worldTransformOfVehicle ops ns a.vehicle_pose_world_NED
        let r := processImages ops ns pubLidar rest (pubs ++ [topic])
          (names ++ [camera_name]) wtNew
        { r with images := pubEvent :: r.images
                 tfSent := [itrans, wtNew] :: r.tfSent }

/-- Lines 121-255, `airsim_image_cb`.  Note the order the code fixes: the
buffer `image_data_` is assigned from the message first (line 122), and only
then does the empty check (line 123) return; the publisher-creation block runs
only while `img_topic_published_` is false and ends by setting it to true. -/
def airsim_image_cb (ops : ScalarOps K) (msg : List (AirSimImageType K Img))
    (s : ROSAirSim K Img) : ROSAirSim K Img × CbOut K Img :=
  let s0 := { s with image_data_ := msg }
  if msg.length = 0 then (s0, ⟨[], []⟩)
  else if s.img_topic_published_ then (s0, ⟨[], []⟩)
  else
    let r := processImages ops s.ros_namespace_ s.pub_lidar_data_ msg
      s.img_publishers_ s.camera_names_ s.world_trans_
    ({ s0 with
        img_publishers_ := r.pubs
        camera_names_ := r.names
        world_trans_ := r.wt
        img_topic_published_ := true },
     ⟨r.images, r.tfSent⟩)

/-- Lines 61-263, `init`, with the externally parsed inputs as arguments: the
parsed parameters, the parent id, and the parent's truth state.  The members
not assigned in the `.cpp` keep their defaults from the header (not under
`src/`): empty buffers, `img_topic_published_` false; the default-constructed
LIDAR buffer is passed in as `lidar0`.  The returned list is everything
`sendTransform` broadcast during `init`: exactly the initial world transform
of lines 100-110. -/
def init (ros_name : String) (id : Nat)
    (show_camera_images pub_image_data pub_lidar_data : Bool)
    (truthPos : Vec3 K) (truthQuat : Quat K) (lidar0 : AirSimLidarType K) :
    ROSAirSim K Img × List (TransformStamped K) :=
  let ns := ros_name ++ toString id
  let wt : TransformStamped K :=
    { frame_id := "world"
      child_frame_id := ns ++ "/base_link"
      translation := truthPos
      rotation := truthQuat }
  ({ show_camera_images_ := show_camera_images
     pub_image_data_ := pub_image_data
     pub_lidar_data_ := pub_lidar_data
     ros_namespace_ := ns
     img_topic_published_ := false
     image_data_ := []
     lidar_data_ := lidar0
     camera_names_ := []
     img_publishers_ := []
     world_trans_ := wt }, [wt])

/-- The outputs of one `step_autonomy` tick: image publications, point-cloud
publications, and the single final `sendTransform` broadcast (line 527). -/
structure StepOut (K Img : Type) where
  images : List (String × ImageMsg Img)
  clouds : List (String × PointCloud2)
  tf : List (TransformStamped K)
deriving DecidableEq

/-- Lines 278-302: for each buffered image, scan `img_publishers_` for the
first publisher whose topic matches and publish there (the inner loop breaks
after publishing); an image with no matching publisher is skipped. -/
def publishImagesLoop (ns : String) (pubs : List String) :
    List (AirSimImageType K Img) → List (String × ImageMsg Img)
  | [] => []
  | a :: rest =>
    match pubs.find? (fun p => p == topicNameOf ns a) with
    | some p => (p, imageMsgOf ns a) :: publishImagesLoop ns pubs rest
    | none => publishImagesLoop ns pubs rest

/-- The accumulator of the per-tick camera transform loop: the transform list
built so far and the member `world_trans_`. -/
structure CamTfAcc (K : Type) where
  tf : List (TransformStamped K)
  wt : TransformStamped K

/-- Lines 324-410: for each recorded camera name, find the first buffered
image whose (raw) configured camera name equals it, and append its camera
transform - plus an updated world transform when LIDAR publishing is off. -/
def cameraTfLoop (ops : ScalarOps K) (ns : String) (pubLidar : Bool)
    (images : List (AirSimImageType K Img)) :
    List String → TransformStamped K → CamTfAcc K
  | [], wt => ⟨[], wt⟩
  | cam :: rest, wt =>
    match images.find? (fun a => a.camera_config.cam_name == cam) with
    | some a =>
      let itrans := cameraTransformFromStep ops ns cam
        a.vehicle_pose_world_NED a.camera_pose_world_NED
      if pubLidar then
        let r := cameraTfLoop ops ns pubLidar images rest wt
        ⟨itrans :: r.tf, r.wt⟩
      else
        let wtNew := worldTransformOfVehicle ops ns a.vehicle_pose_world_NED
        let r := cameraTfLoop ops ns pubLidar images rest wtNew
        ⟨itrans :: wtNew :: r.tf, r.wt⟩
    | none => cameraTfLoop ops ns pubLidar images rest wt

/-- The image publications of one tick (lines 276-302): only when image
publishing is enabled and the publishers have been created. -/
def stepImages (s : ROSAirSim K Img) : List (String × ImageMsg Img) :=
  if s.pub_image_data_ && s.img_topic_published_ then
    publishImagesLoop s.ros_namespace_ s.img_publishers_ s.image_data_
  else []

/-- The camera-transform part of one tick (lines 322-410). -/
def stepCamAcc (ops : ScalarOps K) (s : ROSAirSim K Img) : CamTfAcc K :=
  if s.pub_image_data_ && s.img_topic_published_ then
    cameraTfLoop ops s.ros_namespace_ s.pub_lidar_data_ s.image_data_
      s.camera_names_ s.world_trans_
  else ⟨[], s.world_trans_⟩

/-- Lines 265-530, `step_autonomy(t, dt)`.  `ros::spinOnce()` (line 266) only
delivers pending subscriber callbacks, which are modelled as their own
transitions (`airsim_lidar_cb`, `airsim_image_cb`); the rest of the routine is
transcribed here.  The `cv::imshow` display (lines 305-318) publishes nothing.
Returns the successor state, the outputs, and the C++ return value. -/
def step_autonomy (ops : ScalarOps K) (s : ROSAirSim K Img) (t dt : K) :
    ROSAirSim K Img × StepOut K Img × Bool :=
  if s.pub_lidar_data_ then
    let wt2 := worldTransformOfVehicle ops s.ros_namespace_
      s.lidar_data_.vehicle_pose_world_NED
    let laser_trans := laserTransformOfLidar ops s.ros_namespace_
      s.lidar_data_.vehicle_pose_world_NED s.lidar_data_.lidar_pose_world_NED
    ({ s with world_trans_ := wt2 },
     { images := stepImages s
       clouds := [(s.ros_namespace_ ++ "/base_scan",
                   mkLidarMsg s.ros_namespace_ s.lidar_data_)]
       tf := (stepCamAcc ops s).tf ++ [laser_trans, wt2] },
     true)
  else
    ({ s with world_trans_ := (stepCamAcc ops s).wt },
     { images := stepImages s, clouds := [], tf := (stepCamAcc ops s).tf },
     true)

/-- The primitive events relevant to the `img_topic_published_mutex_`
discipline: acquiring and releasing the mutex, reading and writing
`img_topic_published_`, and any other work. -/
inductive MutexEvent where
  | lock
  | unlock
  | readFlag
  | writeFlag
  | work
deriving DecidableEq

/-- Check that along an event list every access to the flag happens while the
lock depth is positive, starting from the given depth. -/
def mutexOk : List MutexEvent → Nat → Bool
  | [], _ => true
  | MutexEvent.lock :: r, d => mutexOk r (d + 1)
  | MutexEvent.unlock :: r, d => mutexOk r (d - 1)
  | MutexEvent.readFlag :: r, d => decide (0 < d) && mutexOk r d
  | MutexEvent.writeFlag :: r, d => decide (0 < d) && mutexOk r d
  | MutexEvent.work :: r, d => mutexOk r d

/-- The mutex-relevant event skeleton of `airsim_image_cb` (lines 121-255),
by branch: the buffer assignment (line 122), the early return on an empty
message (lines 123-125), the locked read of the flag (lines 127-129), and -
when the topics were not yet published - the publisher-creation work followed
by the locked write of the flag (lines 132-251).  These are the only places
the callback touches the flag. -/
def imageCbMutexTrace (emptyMsg flagAlreadySet : Bool) : List MutexEvent :=
  MutexEvent.work ::
  if emptyMsg then []
  else
    [MutexEvent.lock, MutexEvent.readFlag, MutexEvent.unlock] ++
    if flagAlreadySet then []
    else [MutexEvent.work, MutexEvent.lock, MutexEvent.writeFlag, MutexEvent.unlock]

/-- The mutex-relevant event skeleton of `step_autonomy` (lines 265-530): the
only flag access is the locked read at lines 272-274; the rest of the routine
works on the local copy. -/
def stepMutexTrace : List MutexEvent :=
  [MutexEvent.work, MutexEvent.lock, MutexEvent.readFlag, MutexEvent.unlock,
   MutexEvent.work]

/-- Claim C7: in the image callback and in `step_autonomy`, every read and
every write of `img_topic_published_` happens while the shared mutex is held;
the flag is never accessed outside the lock. -/
theorem flag_accesses_locked (emptyMsg flagAlreadySet : Bool) :
    mutexOk (imageCbMutexTrace emptyMsg flagAlreadySet) 0 = true ∧
    mutexOk stepMutexTrace 0 = true := by
  cases emptyMsg <;> cases flagAlreadySet <;> decide

/-- A scalar-operation record over `ℚ` (the claims settled on concrete inputs
never evaluate the trigonometric branches, so the interpretations are
irrelevant). -/
def opsQ : ScalarOps ℚ := ⟨fun _ => 0, fun _ => 0, fun _ => 0, 0⟩

/-- A concrete camera configuration. -/
def camCfg0 : CameraConfig := ⟨"MainCamera", "Scene", false⟩

/-- A concrete pose. -/
def pose0 : Pose ℚ := ⟨⟨0, 0, 0⟩, ⟨1, 0, 0, 0⟩⟩

/-- A concrete image sample. -/
def img0 : AirSimImageType ℚ Unit := ⟨camCfg0, "veh", (), pose0, pose0⟩

/-- A concrete world transform. -/
def wt0 : TransformStamped ℚ := ⟨"world", "robot1/base_link", ⟨0, 0, 0⟩, ⟨1, 0, 0, 0⟩⟩

/-- A concrete buffered LIDAR sample with an empty point cloud. -/
def lidarEmpty : AirSimLidarType ℚ := ⟨⟨[]⟩, pose0, pose0⟩

/-- A concrete incoming LIDAR sample with a single float (fewer than 3). -/
def lidarShort : AirSimLidarType ℚ := ⟨⟨[5]⟩, pose0, pose0⟩

/-- A concrete plugin state: both publishing paths enabled, topics already
created, one buffered image whose topic has a publisher. -/
def sEx : ROSAirSim ℚ Unit :=
  { show_camera_images_ := false
    pub_image_data_ := true
    pub_lidar_data_ := true
    ros_namespace_ := "robot1"
    img_topic_published_ := true
    image_data_ := [img0]
    lidar_data_ := lidarEmpty
    camera_names_ := ["maincamera"]
    img_publishers_ := ["/robot1/maincamera/scene"]
    world_trans_ := wt0 }

/-- Like `sEx` but before the first image message: flag false and no
publishers yet. -/
def sExFresh : ROSAirSim ℚ Unit :=
  { sEx with img_topic_published_ := false, camera_names_ := [], img_publishers_ := [] }

/-- Claim C3 counterexample: the image callback assigns
`image_data_ = msg->data` (line 122) before the emptiness check (line 123),
so an empty image message does replace the buffered sample - here a state
buffering one image ends up buffering none. -/
theorem empty_image_message_replaces_buffer :
    (airsim_image_cb opsQ ([] : List (AirSimImageType ℚ Unit)) sEx).1.image_data_ ≠
      sEx.image_data_ := by
  simp [airsim_image_cb, sEx, img0]

/-- Claim C3 (amended): an under-sized LIDAR message (fewer than 3 floats) is
dropped with no error, no buffer replacement and no publication; an empty
image message raises no error, publishes nothing and creates nothing, but it
does overwrite the buffered image list (with the empty message) before
returning. -/
theorem undersized_samples_dropped (ops : ScalarOps K) (s : ROSAirSim K Img)
    (lm : AirSimLidarType K) (hl : lm.lidar_data.point_cloud.length < 3)
    (im : List (AirSimImageType K Img)) (hi : im = []) :
    airsim_lidar_cb lm s = s ∧
    (airsim_image_cb ops im s).1 = { s with image_data_ := im } ∧
    (airsim_image_cb ops im s).2 = ⟨[], []⟩ := by
  subst hi
  refine ⟨?_, ?_, ?_⟩
  · simp [airsim_lidar_cb, hl]
  · simp [airsim_image_cb]
  · simp [airsim_image_cb]

/-- Witness for the amended C3 at concrete inputs. -/
theorem undersized_samples_dropped_witness :
    airsim_lidar_cb lidarShort sEx = sEx ∧
    (airsim_image_cb opsQ ([] : List (AirSimImageType ℚ Unit)) sEx).1 =
      { sEx with image_data_ := [] } ∧
    (airsim_image_cb opsQ ([] : List (AirSimImageType ℚ Unit)) sEx).2 = ⟨[], []⟩ :=
  undersized_samples_dropped opsQ sEx lidarShort (by decide) [] rfl

/-- Claim C4: publishers and camera-name records are created only while
`img_topic_published_` is false; a first non-empty image message flips the
flag to true; once true it never reverts, and neither a later image message
nor a tick adds a publisher or a camera name (`step_autonomy` does not touch
them at all). -/
theorem publisher_bookkeeping (ops : ScalarOps K) (s : ROSAirSim K Img)
    (msg : List (AirSimImageType K Img)) (t dt : K) :
    (s.img_topic_published_ = true →
      (airsim_image_cb ops msg s).1.img_publishers_ = s.img_publishers_ ∧
      (airsim_image_cb ops msg s).1.camera_names_ = s.camera_names_ ∧
      (airsim_image_cb ops msg s).1.img_topic_published_ = true) ∧
    (s.img_topic_published_ = false → msg ≠ [] →
      (airsim_image_cb ops msg s).1.img_topic_published_ = true) ∧
    ((step_autonomy ops s t dt).1.img_publishers_ = s.img_publishers_ ∧
     (step_autonomy ops s t dt).1.camera_names_ = s.camera_names_ ∧
     (step_autonomy ops s t dt).1.img_topic_published_ = s.img_topic_published_) := by
  refine ⟨?_, ?_, ?_⟩
  · intro h
    by_cases hm : msg.length = 0 <;> simp [airsim_image_cb, hm, h]
  · intro h hm
    have hm0 : ¬msg.length = 0 := by simpa [List.length_eq_zero] using hm
    simp [airsim_image_cb, hm0, h]
  · cases hlid : s.pub_lidar_data_ <;> simp [step_autonomy, hlid]

/-- Witness for C4 at concrete inputs: a state with the flag already set (no
publisher is added, the flag stays true, the tick preserves the bookkeeping)
and a fresh state where a non-empty message sets the flag. -/
theorem publisher_bookkeeping_witness :
    ((airsim_image_cb opsQ [img0] sEx).1.img_publishers_ = sEx.img_publishers_ ∧
     (airsim_image_cb opsQ [img0] sEx).1.camera_names_ = sEx.camera_names_ ∧
     (airsim_image_cb opsQ [img0] sEx).1.img_topic_published_ = true) ∧
    ((step_autonomy opsQ sEx 0 0).1.img_publishers_ = sEx.img_publishers_ ∧
     (step_autonomy opsQ sEx 0 0).1.camera_names_ = sEx.camera_names_ ∧
     (step_autonomy opsQ sEx 0 0).1.img_topic_published_ = sEx.img_topic_published_) ∧
    (airsim_image_cb opsQ [img0] sExFresh).1.img_topic_published_ = true :=
  ⟨(publisher_bookkeeping opsQ sEx [img0] 0 0).1 rfl,
   (publisher_bookkeeping opsQ sEx [img0] 0 0).2.2,
   (publisher_bookkeeping opsQ sExFresh [img0] 0 0).2.1 rfl (by simp)⟩

/-- Claim C5: `init` broadcasts exactly one transform, with frame `world`,
child `<ros_namespace>/base_link`, translation equal to the parent's
truth-state position and rotation equal to its truth-state quaternion. -/
theorem init_broadcasts_world_transform (Img : Type) (ros_name : String)
    (id : Nat) (sci pid pld : Bool) (truthPos : Vec3 K) (truthQuat : Quat K)
    (lidar0 : AirSimLidarType K) :
    (init ros_name id sci pid pld truthPos truthQuat lidar0 :
        ROSAirSim K Img × List (TransformStamped K)).2 =
      [{ frame_id := "world"
         child_frame_id := (ros_name ++ toString id) ++ "/base_link"
         translation := truthPos
         rotation := truthQuat }] := rfl

/-- If a buffered image's topic has an advertised publisher, the per-tick
publish loop publishes the image message on that topic. -/
theorem publishImagesLoop_mem (ns : String) (pubs : List String)
    (images : List (AirSimImageType K Img)) (a : AirSimImageType K Img)
    (ha : a ∈ images) (hp : topicNameOf ns a ∈ pubs) :
    (topicNameOf ns a, imageMsgOf ns a) ∈ publishImagesLoop ns pubs images := by
  induction images with
  | nil => cases ha
  | cons b rest ih =>
    rcases List.mem_cons.mp ha with rfl | ha2
    · cases hf : pubs.find? (fun p => p == topicNameOf ns a) with
      | none =>
        exact absurd (by simp) (List.find?_eq_none.mp hf (topicNameOf ns a) hp)
      | some p =>
        have hb := List.find?_some hf
        have hpa : p = topicNameOf ns a := eq_of_beq hb
        subst hpa
        simp [publishImagesLoop, hf]
    · cases hf : pubs.find? (fun p => p == topicNameOf ns b) with
      | none => simpa [publishImagesLoop, hf] using ih ha2
      | some p =>
        simp [publishImagesLoop, hf]
        exact Or.inr (ih ha2)

/-- A concrete state with the topics created but no publisher matching the
buffered image's topic (reachable: after topic creation, a later image
message from a camera that was absent from the first message replaces the
buffer). -/
def sC6 : ROSAirSim ℚ Unit :=
  { show_camera_images_ := false
    pub_image_data_ := true
    pub_lidar_data_ := false
    ros_namespace_ := "robot1"
    img_topic_published_ := true
    image_data_ := [img0]
    lidar_data_ := lidarEmpty
    camera_names_ := []
    img_publishers_ := []
    world_trans_ := wt0 }

/-- Claim C6 counterexample: with image publishing enabled and the publishers
created, a buffered image whose topic has no matching publisher is silently
skipped, so not every buffered image is published.  Here the state buffers one
image but holds no publisher for its topic, and the tick publishes no image at
all. -/
theorem step_unmatched_image_not_published :
    sC6.pub_image_data_ = true ∧ sC6.img_topic_published_ = true ∧
    sC6.image_data_ ≠ [] ∧
    (step_autonomy opsQ sC6 0 0).2.1.images = [] := by
  exact ⟨rfl, rfl, by simp [sC6], rfl⟩

/-- Claim C6 (amended): on every tick, if image publishing is enabled and the
publishers have been created, each buffered image whose topic has a matching
publisher is published to it (an image with no matching publisher is
skipped); and if LIDAR publishing is enabled, exactly one PointCloud2 message
goes out on the base_scan topic and the recomputed laser and world transforms
are both in the tick's broadcast. -/
theorem step_republishes_buffers (ops : ScalarOps K) (s : ROSAirSim K Img)
    (t dt : K) :
    (s.pub_image_data_ = true → s.img_topic_published_ = true →
      ∀ a ∈ s.image_data_, topicNameOf s.ros_namespace_ a ∈ s.img_publishers_ →
        (topicNameOf s.ros_namespace_ a, imageMsgOf s.ros_namespace_ a) ∈
          (step_autonomy ops s t dt).2.1.images) ∧
    (s.pub_lidar_data_ = true →
      (step_autonomy ops s t dt).2.1.clouds =
        [(s.ros_namespace_ ++ "/base_scan", mkLidarMsg s.ros_namespace_ s.lidar_data_)] ∧
      laserTransformOfLidar ops s.ros_namespace_
          s.lidar_data_.vehicle_pose_world_NED s.lidar_data_.lidar_pose_world_NED ∈
        (step_autonomy ops s t dt).2.1.tf ∧
      worldTransformOfVehicle ops s.ros_namespace_
          s.lidar_data_.vehicle_pose_world_NED ∈
        (step_autonomy ops s t dt).2.1.tf) := by
  constructor
  · intro hpi hflag a ha hp
    have hmem := publishImagesLoop_mem s.ros_namespace_
      s.img_publishers_ s.image_data_ a ha hp
    cases hlid : s.pub_lidar_data_ <;>
      simpa [step_autonomy, hlid, stepImages, hpi, hflag] using hmem
  · intro hlid
    refine ⟨by simp [step_autonomy, hlid], ?_, ?_⟩ <;>
      simp [step_autonomy, hlid]

/-- Witness for the amended C6 at concrete inputs: in `sEx` the buffered
image's topic has its publisher, and LIDAR publishing is enabled. -/
theorem step_republishes_buffers_witness :
    (topicNameOf sEx.ros_namespace_ img0, imageMsgOf sEx.ros_namespace_ img0) ∈
      (step_autonomy opsQ sEx 0 0).2.1.images ∧
    (step_autonomy opsQ sEx 0 0).2.1.clouds =
      [(sEx.ros_namespace_ ++ "/base_scan",
        mkLidarMsg sEx.ros_namespace_ sEx.lidar_data_)] ∧
    laserTransformOfLidar opsQ sEx.ros_namespace_
        sEx.lidar_data_.vehicle_pose_world_NED sEx.lidar_data_.lidar_pose_world_NED ∈
      (step_autonomy opsQ sEx 0 0).2.1.tf ∧
    worldTransformOfVehicle opsQ sEx.ros_namespace_
        sEx.lidar_data_.vehicle_pose_world_NED ∈
      (step_autonomy opsQ sEx 0 0).2.1.tf :=
  ⟨(step_republishes_buffers opsQ sEx 0 0).1 rfl rfl img0 (by simp [sEx])
    (by decide),
   (step_republishes_buffers opsQ sEx 0 0).2 rfl⟩

/-- A concrete buffered LIDAR sample with exactly 3 floats (one point). -/
def lidarThree : AirSimLidarType ℚ := ⟨⟨[1, 2, 3]⟩, pose0, pose0⟩

/-- A concrete buffered LIDAR sample with 6 floats (two points). -/
def lidarSix : AirSimLidarType ℚ := ⟨⟨[1, 2, 3, 4, 5, 6]⟩, pose0, pose0⟩

/-- Claim C8: the per-tick PointCloud2 payload is filled only for a buffered
cloud of strictly more than 3 floats, in which case height is 1, width is the
float count divided by 3, the fields are x, y, z as FLOAT32 at offsets 0, 4,
8 with point_step 12 and row_step 12 times the width, and the data is exactly
the raw bytes of the buffered floats; a cloud of exactly 3 floats - which the
callback does accept into the buffer - is published as an empty message. -/
theorem lidar_message_payload (ns : String) (ld : AirSimLidarType K)
    (s : ROSAirSim K Img) (m3 : AirSimLidarType K) :
    (3 < ld.lidar_data.point_cloud.length →
      (mkLidarMsg ns ld).height = 1 ∧
      (mkLidarMsg ns ld).width = ld.lidar_data.point_cloud.length / 3 ∧
      (mkLidarMsg ns ld).fields =
        [⟨"x", 0, FLOAT32, 1⟩, ⟨"y", 4, FLOAT32, 1⟩, ⟨"z", 8, FLOAT32, 1⟩] ∧
      (mkLidarMsg ns ld).point_step = 12 ∧
      (mkLidarMsg ns ld).row_step = 12 * (ld.lidar_data.point_cloud.length / 3) ∧
      (mkLidarMsg ns ld).data = pointCloudBytes ld.lidar_data.point_cloud) ∧
    (m3.lidar_data.point_cloud.length = 3 →
      airsim_lidar_cb m3 s = { s with lidar_data_ := m3 } ∧
      mkLidarMsg ns m3 =
        { frame_id := ns ++ "/base_laser", height := 0, width := 0, fields := []
          is_bigendian := false, point_step := 0, row_step := 0
          is_dense := false, data := [] }) := by
  constructor
  · intro h
    refine ⟨?_, ?_, ?_, ?_, ?_, ?_⟩ <;> simp [mkLidarMsg, h]
  · intro h3
    constructor
    · have : ¬m3.lidar_data.point_cloud.length < 3 := by omega
      simp [airsim_lidar_cb, this]
    · have : ¬3 < m3.lidar_data.point_cloud.length := by omega
      simp [mkLidarMsg, this]

/-- Witness for C8 at concrete inputs: a 6-float cloud gets the full payload,
a 3-float cloud is accepted by the callback but published empty. -/
theorem lidar_message_payload_witness :
    ((mkLidarMsg "robot1" lidarSix).height = 1 ∧
     (mkLidarMsg "robot1" lidarSix).width = lidarSix.lidar_data.point_cloud.length / 3 ∧
     (mkLidarMsg "robot1" lidarSix).fields =
       [⟨"x", 0, FLOAT32, 1⟩, ⟨"y", 4, FLOAT32, 1⟩, ⟨"z", 8, FLOAT32, 1⟩] ∧
     (mkLidarMsg "robot1" lidarSix).point_step = 12 ∧
     (mkLidarMsg "robot1" lidarSix).row_step =
       12 * (lidarSix.lidar_data.point_cloud.length / 3) ∧
     (mkLidarMsg "robot1" lidarSix).data =
       pointCloudBytes lidarSix.lidar_data.point_cloud) ∧
    (airsim_lidar_cb lidarThree sEx = { sEx with lidar_data_ := lidarThree } ∧
     mkLidarMsg "robot1" lidarThree =
       { frame_id := "robot1" ++ "/base_laser", height := 0, width := 0
         fields := [], is_bigendian := false, point_step := 0, row_step := 0
         is_dense := false, data := [] }) :=
  ⟨(lidar_message_payload "robot1" lidarSix sEx lidarThree).1 (by decide),
   (lidar_message_payload "robot1" lidarSix sEx lidarThree).2 (by decide)⟩

/-- Claim C9: with image publishing and LIDAR publishing both disabled, a tick
publishes no sensor message, broadcasts an empty transform list, leaves every
state field unchanged, and still returns true. -/
theorem step_noop_when_disabled (ops : ScalarOps K) (s : ROSAirSim K Img)
    (t dt : K) (hi : s.pub_image_data_ = false) (hl : s.pub_lidar_data_ = false) :
    step_autonomy ops s t dt = (s, ⟨[], [], []⟩, true) := by
  cases s with
  | mk sci pid pld ns flag imgs lid names pubs wt =>
    dsimp at hi hl
    subst hi
    subst hl
    simp [step_autonomy, stepImages, stepCamAcc]

/-- A concrete state with both publishing paths disabled. -/
def sOff : ROSAirSim ℚ Unit :=
  { sEx with pub_image_data_ := false, pub_lidar_data_ := false }

/-- Witness for C9 at a concrete state. -/
theorem step_noop_when_disabled_witness :
    step_autonomy opsQ sOff 0 0 = (sOff, ⟨[], [], []⟩, true) :=
  step_noop_when_disabled opsQ sOff 0 0 rfl rfl

/-- Claim C10: `step_autonomy` returns true for every state and every pair of
inputs t and dt; it never signals failure. -/
theorem step_always_returns_true (ops : ScalarOps K) (s : ROSAirSim K Img)
    (t dt : K) : (step_autonomy ops s t dt).2.2 = true := by
  cases hl : s.pub_lidar_data_ <;> simp [step_autonomy, hl]

end RosAirSim
